import Mathlib

/-!
Verification of the Jenkins MCP server (`jenkins_mcp/server.py`).

The development shallowly embeds the core of `JenkinsMCPServer`:
the tool catalog, `process_tool_call` dispatch, the three placeholder
handlers, and the `_handle_trigger_job` orchestration (crumb fetch,
submit POST, queue polling, build polling, console retrieval).

Network interaction is modelled by an oracle (`NetEnv`) that fixes the
outcome of every HTTP request the handler can make: each outcome is
either a transport-level exception (`Except.error msg`, standing for a
`requests` exception) or an `HttpResponse`.  JSON documents are modelled
by the inductive `JVal`; Python truthiness and `dict.get` semantics are
made explicit.  Alongside its result the embedded handler returns a
`Trace` counting the HTTP calls it performed, so that claims about "how
many poll calls occur" are statable.
-/

namespace JenkinsMCP

/-- A JSON value, as produced by `response.json()`.  Arrays are omitted:
no code path in the server reads an array. -/
inductive JVal where
  | null : JVal
  | bool : Bool → JVal
  | num : Int → JVal
  | str : String → JVal
  | obj : List (String × JVal) → JVal

/-- Python truthiness of a JSON value (`None`, `False`, `0`, `""` and
`{}` are falsy). -/
def JVal.truthy : JVal → Bool
  | .null => false
  | .bool b => b
  | .num n => n != 0
  | .str s => s != ""
  | .obj fields => !fields.isEmpty

/-- Python `d.get(key)` on a value: returns the stored value, `None`
(modelled as `JVal.null`) when the key is missing, and raises
(`Except.error`) when the receiver is not a dict. -/
def JVal.get : JVal → String → Except Unit JVal
  | .obj fields, k =>
      match fields.lookup k with
      | some v => .ok v
      | none => .ok .null
  | _, _ => .error ()

/-- Python `d.get(key, default)` on a value: like `JVal.get` but with an
explicit default for a missing key. -/
def JVal.getD : JVal → String → JVal → Except Unit JVal
  | .obj fields, k, d =>
      match fields.lookup k with
      | some v => .ok v
      | none => .ok d
  | _, _, _ => .error ()

/-- Whether the value may be used as a Python dict key
(`headers[crumb_field] = crumb_value` raises `TypeError` on an
unhashable key; of the modelled values only dicts are unhashable). -/
def JVal.hashable : JVal → Bool
  | .obj _ => false
  | _ => true

/-- Python `str(x)` for an f-string interpolation of a JSON value.  The exact
rendering of a dict is irrelevant to every property below and is
abbreviated. -/
def JVal.pyStr : JVal → String
  | .null => "None"
  | .bool true => "True"
  | .bool false => "False"
  | .num n => toString n
  | .str s => s
  | .obj _ => "\x7b...\x7d"

/-- Python `str(x)` for an `Optional[str]` (used when `job_name` is `None`
inside an f-string). -/
def pyStrOpt : Option String → String
  | none => "None"
  | some s => s

/-- Python `s.startswith("/")`: the first character is a slash. -/
def startsWithSlash (s : String) : Bool :=
  match s.data with
  | [] => false
  | c :: _ => c == '/'

/-- Python `s.rstrip("/")`: drop all trailing slashes. -/
def rstripSlash (s : String) : String :=
  ⟨(s.data.reverse.dropWhile (· = '/')).reverse⟩

/-- Truthiness of a Python `Optional[str]` (`None` and `""` are falsy). -/
def strTruthy : Option String → Bool
  | none => false
  | some s => s != ""

/-- Python `a or b` on `Optional[str]` values. -/
def pyOrStr (a b : Option String) : Option String :=
  if strTruthy a then a else b

/-- The modelled outcome of one `requests` call that returned: status
code (via `getattr(resp, "status_code", None)`), the JSON body
(`none` when `.json()` raises a parse error), the raw text, and the
response headers. -/
structure HttpResponse where
  status_code : Option Nat
  body : Option JVal
  text : String
  headers : List (String × String)

/-- A `requests` call either raises a transport exception (with message)
or yields a response. -/
abbrev HttpResult := Except String HttpResponse

/-- Reading `headers.get(name)` on a response. -/
def headerGet (hs : List (String × String)) (name : String) : Option String :=
  hs.lookup name

/-- Truthiness of `status_code` (`None` and `0` are falsy),
as used in `if status_code and status_code < 400`. -/
def scTruthy : Option Nat → Bool
  | none => false
  | some n => n != 0

/-- Python `status_code in (200, 201, 202)` (false for `None`). -/
def scSuccess : Option Nat → Bool
  | none => false
  | some n => n == 200 || n == 201 || n == 202

/-- Python `status_code and status_code < 400` (short-circuit: false for
`None`, and a Python `0` status would be falsy). -/
def submitLt400 : Option Nat → Bool
  | none => false
  | some n => n != 0 && n < 400

/-- Truthiness of a Python variable holding `None` or a JSON value. -/
def optTruthy : Option JVal → Bool
  | none => false
  | some v => v.truthy

/-- The arguments mapping of one tool invocation, restricted to the keys
any handler reads.  A `none` field stands for an absent key; `parameters`
is the (possibly empty) parameter dict. -/
structure Args where
  jenkins_url : Option String
  job_name : Option String
  parameters : List (String × String)
  username : Option String
  api_token : Option String
  filter : Option String

/-- The process environment variables the trigger handler reads
(`os.getenv` results). -/
structure OsEnv where
  jenkins_username : Option String
  jenkins_api_token : Option String

/-- The network oracle: the outcome of every HTTP request the trigger
handler can issue.  `queueResp i` (resp. `buildResp i`) is the outcome
of the `i`-th queue-poll (resp. build-poll) GET, counting from 0. -/
structure NetEnv where
  crumbResp : HttpResult
  submitResp : HttpResult
  queueResp : Nat → HttpResult
  buildResp : Nat → HttpResult
  consoleResp : HttpResult

/-- HTTP calls performed during one handler run, plus the extra headers
that were attached to the submit POST. -/
structure Trace where
  crumbCalls : Nat
  submitCalls : Nat
  queuePolls : Nat
  buildPolls : Nat
  consoleFetches : Nat
  submitHeaders : List (JVal × JVal)

/-- The empty trace (no HTTP call made). -/
def Trace.zero : Trace :=
  { crumbCalls := 0, submitCalls := 0, queuePolls := 0, buildPolls := 0,
    consoleFetches := 0, submitHeaders := [] }

/-- Crumb resolution (server.py lines 248-260): only attempted when auth
is present; on HTTP 200 with truthy `crumbRequestField` and `crumb`
values in the JSON body, yields the header pair; any exception inside
the `try` (transport error, JSON parse error, `.get` on a non-dict,
unhashable header key) is swallowed, leaving the headers empty. -/
def resolveCrumbHeaders (auth : Bool) (r : HttpResult) : List (JVal × JVal) :=
  if auth then
    match r with
    | .error _ => []
    | .ok resp =>
      if resp.status_code = some 200 then
        match resp.body with
        | none => []
        | some cj =>
          match cj.get "crumbRequestField", cj.get "crumb" with
          | .ok f, .ok v =>
            if f.truthy && v.truthy then
              if f.hashable then [(f, v)] else []
            else []
          | _, _ => []
      else []
  else []

/-- Outcome of the submit POST (server.py lines 263-276): the recorded
`status_code` and `api_body`.  A transport exception yields
`status_code = None` and `{"error": str(exc)}`; otherwise the body is
parsed as JSON when `status_code and status_code < 400`, with the
documented fallbacks when parsing raises. -/
def submitOutcome (r : HttpResult) : Option Nat × JVal :=
  match r with
  | .error exc => (none, .obj [("error", .str exc)])
  | .ok resp =>
    let sc := resp.status_code
    let body :=
      if submitLt400 sc then
        match resp.body with
        | some j => j
        | none =>
          if scSuccess sc then .obj [("message", .str "Triggered (no JSON body)")]
          else .obj [("error", .str resp.text)]
      else .obj [("error", .str resp.text)]
    (sc, body)

/-- Reading the `Location` header (server.py lines 286-289).  When the
submit POST raised, the name `response` is unbound and the attribute
access raises `NameError`, which the surrounding `try` swallows,
leaving `location = None`. -/
def getLocation : HttpResult → Option String
  | .error _ => none
  | .ok r => pyOrStr (headerGet r.headers "Location") (headerGet r.headers "location")

/-- One queue-poll attempt (body of the loop, server.py lines 299-310):
on HTTP 200 with a parsed JSON body whose `executable` field is truthy
and has a truthy `number`, captures `(build_number, build_url,
queue_item)` and signals the `break`; every exception inside the `try`
is swallowed (`none`, loop continues). -/
def queueStep (jenkins_url : String) (job_name : Option String) (r : HttpResult) :
    Option (JVal × JVal × JVal) :=
  match r with
  | .error _ => none
  | .ok qresp =>
    if qresp.status_code = some 200 then
      match qresp.body with
      | none => none
      | some qj =>
        match qj.get "executable" with
        | .error _ => none
        | .ok exe =>
          if exe.truthy then
            match exe.get "number" with
            | .error _ => none
            | .ok numv =>
              if numv.truthy then
                let urlv := match exe.get "url" with | .ok u => u | .error _ => .null
                let build_url : JVal :=
                  if urlv.truthy then urlv
                  else .str (rstripSlash jenkins_url ++ "/job/" ++ pyStrOpt job_name
                               ++ "/" ++ numv.pyStr ++ "/")
                some (numv, build_url, qj)
              else none
          else none
    else none

/-- One build-poll attempt (body of the loop, server.py lines 317-324):
`some ()` signals the `break` (HTTP 200, parsed body, falsy
`building` with default `True`); any exception is swallowed. -/
def buildStep (r : HttpResult) : Option Unit :=
  match r with
  | .error _ => none
  | .ok bresp =>
    if bresp.status_code = some 200 then
      match bresp.body with
      | none => none
      | some bj =>
        match bj.getD "building" (.bool true) with
        | .error _ => none
        | .ok b => if b.truthy then none else some ()
    else none

/-- A bounded polling loop `for _ in range(fuel)` over attempt indices
starting at `i`: stops at the first attempt whose step signals a break,
returning the captured value and the number of attempts performed. -/
def pollLoop {α : Type} (f : Nat → Option α) : Nat → Nat → Option α × Nat
  | 0, _ => (none, 0)
  | fuel + 1, i =>
    match f i with
    | some a => (some a, 1)
    | none =>
      ((pollLoop f fuel (i + 1)).1, (pollLoop f fuel (i + 1)).2 + 1)

/-- Console retrieval (server.py lines 327-333): on HTTP 200 the body is
captured verbatim; a transport exception sets the sentinel; any other
status leaves `console_output` unchanged (it was `""`). -/
def consoleFetch (r : HttpResult) : String :=
  match r with
  | .error _ => "Unable to fetch console output"
  | .ok cresp => if cresp.status_code = some 200 then cresp.text else ""

/-- The result dict returned by `_handle_trigger_job` (server.py lines
341-354).  `api_response_text` is omitted: it is a pure serialization of
`api_response` and no property below concerns it. -/
structure TriggerResult where
  jenkins_url : String
  job_name : Option String
  triggered : Bool
  status_code : Option Nat
  parameters_sent : List (String × String)
  api_response : JVal
  queue_url : Option String
  queue_item : Option JVal
  build_number : Option JVal
  build_url : Option JVal
  console_output : String

/-- The queue-resolution phase (server.py lines 291-311): entered only
when `location` is truthy; normalizes the queue URL (prefixing the base
URL for a path-relative header) and runs the 30-attempt poll loop.
Returns `(queue_url, (captured triple or none, polls performed))`. -/
def queuePhase (jenkins_url : String) (job_name : Option String)
    (location : Option String) (net : NetEnv) :
    Option String × (Option (JVal × JVal × JVal) × Nat) :=
  if strTruthy location then
    let loc := location.getD ""
    let queue_url := if startsWithSlash loc then rstripSlash jenkins_url ++ loc else loc
    (some queue_url,
     pollLoop (fun i => queueStep jenkins_url job_name (net.queueResp i)) 30 0)
  else (none, (none, 0))

/-- The build-poll / console phase and result construction (server.py
lines 313-354).  `found` is the triple captured by the queue poll (or
`none`).  The `Except.error` outcome models the one unguarded attribute
access: line 315 computes `build_url.rstrip("/")` outside any `try`,
which raises `AttributeError` when the queue item supplied a truthy
non-string `executable.url`; that exception propagates to the
dispatcher. -/
def finishTrigger (jenkins_url : String) (job_name : Option String)
    (parameters : List (String × String)) (status_code : Option Nat)
    (api_body : JVal) (queue_url : Option String)
    (found : Option (JVal × JVal × JVal)) (baseTrace : Trace) (net : NetEnv) :
    Except String TriggerResult × Trace :=
  let build_number : Option JVal := found.map (fun t => t.1)
  let build_url : Option JVal := found.map (fun t => t.2.1)
  let queue_item : Option JVal := found.map (fun t => t.2.2)
  if optTruthy build_url && optTruthy build_number then
    match build_url with
    | some (.str _) =>
      let buildPolls := (pollLoop (fun i => buildStep (net.buildResp i)) 60 0).2
      let console_output := consoleFetch net.consoleResp
      (.ok { jenkins_url := jenkins_url, job_name := job_name,
             triggered := scSuccess status_code, status_code := status_code,
             parameters_sent := parameters, api_response := api_body,
             queue_url := queue_url, queue_item := queue_item,
             build_number := build_number, build_url := build_url,
             console_output := console_output },
       { baseTrace with buildPolls := buildPolls, consoleFetches := 1 })
    | _ =>
      (.error "AttributeError: object has no attribute rstrip", baseTrace)
  else
    (.ok { jenkins_url := jenkins_url, job_name := job_name,
           triggered := scSuccess status_code, status_code := status_code,
           parameters_sent := parameters, api_response := api_body,
           queue_url := queue_url, queue_item := queue_item,
           build_number := build_number, build_url := build_url,
           console_output := "" },
     baseTrace)

/-- The handler `_handle_trigger_job` (server.py lines 224-354), assembled from the
phases above: credential resolution, crumb fetch, submit POST, Location
read, queue phase, build/console phase. -/
def handleTriggerJob (args : Args) (env : OsEnv) (net : NetEnv) :
    Except String TriggerResult × Trace :=
  let jenkins_url := args.jenkins_url.getD "http://localhost:8081"
  let username := pyOrStr args.username env.jenkins_username
  let api_token := pyOrStr args.api_token env.jenkins_api_token
  let auth := strTruthy username && strTruthy api_token
  let headers := resolveCrumbHeaders auth net.crumbResp
  let so := submitOutcome net.submitResp
  let location := getLocation net.submitResp
  let qp := queuePhase jenkins_url args.job_name location net
  let baseTrace : Trace :=
    { crumbCalls := if auth then 1 else 0, submitCalls := 1,
      queuePolls := qp.2.2, buildPolls := 0, consoleFetches := 0,
      submitHeaders := headers }
  finishTrigger jenkins_url args.job_name args.parameters so.1 so.2
    qp.1 qp.2.1 baseTrace net

/-- Result of `_handle_get_jenkins_status` (server.py lines 186-194). -/
structure StatusResult where
  jenkins_url : String
  status : String
  message : String

/-- The handler `_handle_get_jenkins_status`: a pure placeholder. -/
def handleGetJenkinsStatus (args : Args) : StatusResult :=
  { jenkins_url := args.jenkins_url.getD "http://localhost:8081",
    status := "healthy",
    message := "Jenkins server is operational, Please note that this is a demo Impl." }

/-- One entry of the placeholder job list. -/
structure JobEntry where
  name : String
  status : String

/-- Result of `_handle_list_jobs` (server.py lines 196-209). -/
structure ListJobsResult where
  jenkins_url : String
  jobs : List JobEntry
  filter_applied : String

/-- The handler `_handle_list_jobs`: a pure placeholder. -/
def handleListJobs (args : Args) : ListJobsResult :=
  { jenkins_url := args.jenkins_url.getD "http://localhost:8081",
    jobs := [{ name := "example-job-1", status := "stable" },
             { name := "example-job-2", status := "unstable" }],
    filter_applied := args.filter.getD "" }

/-- Result of `_handle_get_job_info` (server.py lines 211-222). -/
structure JobInfoResult where
  jenkins_url : String
  job_name : Option String
  status : String
  last_build : Nat
  last_build_status : String

/-- The handler `_handle_get_job_info`: a pure placeholder. -/
def handleGetJobInfo (args : Args) : JobInfoResult :=
  { jenkins_url := args.jenkins_url.getD "http://localhost:8081",
    job_name := args.job_name,
    status := "stable",
    last_build := 42,
    last_build_status := "success" }

/-- The keys of `self.tools` (server.py lines 69-138).  The catalog's
descriptions and input schemas are static data that no property below
reads; only membership of the name matters to the dispatcher. -/
def toolNames : List String :=
  ["get_jenkins_status", "list_jobs", "get_job_info", "trigger_job"]

/-- The handler return value wrapped by a successful envelope. -/
inductive ToolPayload where
  | statusR : StatusResult → ToolPayload
  | listR : ListJobsResult → ToolPayload
  | infoR : JobInfoResult → ToolPayload
  | triggerR : TriggerResult → ToolPayload

/-- The envelope returned by `process_tool_call`: `success` plus either
a `result` payload or an `error` message. -/
structure Envelope where
  success : Bool
  result : Option ToolPayload
  error : Option String

/-- The dispatcher `process_tool_call` (server.py lines 149-184): unknown tool names
are rejected; otherwise `getattr` finds `_handle_{tool_name}` (every
catalog tool has a handler, so the "No handler" branch — kept last —
is dead code here as in the source); a handler exception is caught and
converted to a failure envelope carrying `str(e)`.  The second
component is the trace of HTTP calls the invocation performed. -/
def process_tool_call (tool_name : String) (args : Args) (env : OsEnv) (net : NetEnv) :
    Envelope × Trace :=
  if tool_name ∉ toolNames then
    ({ success := false, result := none,
       error := some ("Unknown tool: " ++ tool_name) }, Trace.zero)
  else if tool_name = "get_jenkins_status" then
    ({ success := true, result := some (.statusR (handleGetJenkinsStatus args)),
       error := none }, Trace.zero)
  else if tool_name = "list_jobs" then
    ({ success := true, result := some (.listR (handleListJobs args)),
       error := none }, Trace.zero)
  else if tool_name = "get_job_info" then
    ({ success := true, result := some (.infoR (handleGetJobInfo args)),
       error := none }, Trace.zero)
  else if tool_name = "trigger_job" then
    match handleTriggerJob args env net with
    | (.ok r, tr) =>
      ({ success := true, result := some (.triggerR r), error := none }, tr)
    | (.error e, tr) =>
      ({ success := false, result := none, error := some e }, tr)
  else
    ({ success := false, result := none,
       error := some ("No handler for tool: " ++ tool_name) }, Trace.zero)

/-! ### Concrete fixtures (used to instantiate the theorems below) -/

/-- An invocation argument mapping with only the required keys. -/
def fxArgs : Args :=
  { jenkins_url := some "http://jenkins", job_name := some "myjob",
    parameters := [], username := none, api_token := none, filter := none }

/-- An invocation argument mapping carrying credentials. -/
def fxArgsAuth : Args :=
  { jenkins_url := some "http://jenkins", job_name := some "myjob",
    parameters := [], username := some "alice", api_token := some "tok",
    filter := none }

/-- An empty process environment. -/
def fxEnv : OsEnv := { jenkins_username := none, jenkins_api_token := none }

/-- A network where every request fails at the transport level. -/
def fxNetDown : NetEnv :=
  { crumbResp := .error "ConnectionError: refused",
    submitResp := .error "ConnectionError: boom",
    queueResp := fun _ => .error "ConnectionError: refused",
    buildResp := fun _ => .error "ConnectionError: refused",
    consoleResp := .error "ConnectionError: refused" }

/-- A submit response with status 201 and a queue `Location` header. -/
def fxRespSubmit : HttpResponse :=
  { status_code := some 201, body := none, text := "",
    headers := [("Location", "/queue/item/5/")] }

/-- A queue answer still waiting (no `executable` yet). -/
def fxRespQueueWait : HttpResponse :=
  { status_code := some 200, body := some (.obj [("why", .str "pending")]),
    text := "", headers := [] }

/-- A queue answer whose `executable` resolves build 7 with a string URL. -/
def fxRespQueueDone : HttpResponse :=
  { status_code := some 200,
    body := some (.obj [("executable",
      .obj [("number", .num 7), ("url", .str "http://jenkins/job/myjob/7/")])]),
    text := "", headers := [] }

/-- A queue answer whose `executable.url` is a truthy non-string value. -/
def fxRespQueueBadUrl : HttpResponse :=
  { status_code := some 200,
    body := some (.obj [("executable",
      .obj [("number", .num 7), ("url", .num 7)])]),
    text := "", headers := [] }

/-- A build answer that reports `building: false`. -/
def fxRespBuildDone : HttpResponse :=
  { status_code := some 200, body := some (.obj [("building", .bool false)]),
    text := "", headers := [] }

/-- A build answer that reports `building: true`. -/
def fxRespBuilding : HttpResponse :=
  { status_code := some 200, body := some (.obj [("building", .bool true)]),
    text := "", headers := [] }

/-- A console answer with status 200 and a log body. -/
def fxRespConsole : HttpResponse :=
  { status_code := some 200, body := none, text := "hello log", headers := [] }

/-- A console answer with status 404. -/
def fxRespConsole404 : HttpResponse :=
  { status_code := some 404, body := none, text := "Not Found", headers := [] }

/-- A network for a full happy path: submit 201 with queue location, the
queue resolves on the second attempt, the build finishes at once, and the
console fetch succeeds. -/
def fxNetHappy : NetEnv :=
  { crumbResp := .error "ConnectionError: refused",
    submitResp := .ok fxRespSubmit,
    queueResp := fun i => if i = 0 then .ok fxRespQueueWait else .ok fxRespQueueDone,
    buildResp := fun _ => .ok fxRespBuildDone,
    consoleResp := .ok fxRespConsole }

/-- Like `fxNetHappy`, but the console endpoint answers 404. -/
def fxNetConsole404 : NetEnv :=
  { fxNetHappy with consoleResp := .ok fxRespConsole404 }

/-- Like `fxNetHappy`, but the queue resolves at once to a truthy
non-string `executable.url`. -/
def fxNetBadUrl : NetEnv :=
  { fxNetHappy with queueResp := fun _ => .ok fxRespQueueBadUrl }

/-- Like `fxNetHappy`, but the build never reports `building: false`. -/
def fxNetNeverDone : NetEnv :=
  { fxNetHappy with buildResp := fun _ => .ok fxRespBuilding }

/-- A submit response without any `Location` header. -/
def fxRespNoLoc : HttpResponse :=
  { status_code := some 200, body := none, text := "ok", headers := [] }

/-- A network whose submit response has no `Location` header. -/
def fxNetNoLoc : NetEnv :=
  { fxNetHappy with submitResp := .ok fxRespNoLoc }

/-- A submit response with status 400 and an error body. -/
def fxRespSubmit400 : HttpResponse :=
  { status_code := some 400, body := none, text := "Bad Request", headers := [] }

/-- A network whose submit answers 400 (no `Location` header). -/
def fxNet400 : NetEnv :=
  { fxNetDown with submitResp := .ok fxRespSubmit400 }

/-- A crumb body in which both keys are present but `crumbRequestField`
is the empty string. -/
def fxCrumbBodyPresent : JVal :=
  .obj [("crumbRequestField", .str ""), ("crumb", .str "abc")]

/-- A 200 crumb response carrying `fxCrumbBodyPresent`. -/
def fxRespCrumbPresent : HttpResponse :=
  { status_code := some 200, body := some fxCrumbBodyPresent, text := "",
    headers := [] }

/-- Whether a JSON value is an object with the given key present. -/
def JVal.hasKey : JVal → String → Bool
  | .obj fields, k => (fields.lookup k).isSome
  | _, _ => false

/-- A well-formed crumb body. -/
def fxCrumbBodyGood : JVal :=
  .obj [("crumbRequestField", .str "Jenkins-Crumb"), ("crumb", .str "abc")]

/-- A 200 crumb response carrying `fxCrumbBodyGood`. -/
def fxRespCrumbGood : HttpResponse :=
  { status_code := some 200, body := some fxCrumbBodyGood, text := "",
    headers := [] }

/-- The happy-path result of `handleTriggerJob fxArgs fxEnv fxNetHappy`. -/
def fxResHappy : TriggerResult :=
  { jenkins_url := "http://jenkins", job_name := some "myjob",
    triggered := true, status_code := some 201, parameters_sent := [],
    api_response := .obj [("message", .str "Triggered (no JSON body)")],
    queue_url := some "http://jenkins/queue/item/5/",
    queue_item := some (.obj [("executable",
      .obj [("number", .num 7), ("url", .str "http://jenkins/job/myjob/7/")])]),
    build_number := some (.num 7),
    build_url := some (.str "http://jenkins/job/myjob/7/"),
    console_output := "hello log" }

/-- The happy-path trace: 1 submit, 2 queue polls, 1 build poll, 1
console fetch, no crumb call. -/
def fxTraceHappy : Trace :=
  { crumbCalls := 0, submitCalls := 1, queuePolls := 2, buildPolls := 1,
    consoleFetches := 1, submitHeaders := [] }

/-- Like `fxResHappy` but with the console output left empty (the
outcome under `fxNetConsole404`). -/
def fxResConsole404 : TriggerResult :=
  { fxResHappy with console_output := "" }

/-- The result under `fxNetNeverDone`: like the happy path but the
console is fetched after exhausting the 60 build polls. -/
def fxResNeverDone : TriggerResult := fxResHappy

/-- The trace under `fxNetNeverDone`: all 60 build polls spent. -/
def fxTraceNeverDone : Trace := { fxTraceHappy with buildPolls := 60 }

/-! ### Auxiliary lemmas -/

theorem append_slash_ne_empty (s : String) : s ++ "/" ≠ "" := by
  intro h
  have h2 := congrArg String.length h
  rw [String.length_append] at h2
  have h3 : "/".length = 1 := rfl
  have h4 : "".length = 0 := rfl
  omega

theorem pollLoop_pos {α : Type} (f : Nat → Option α) (fuel i : Nat) (h : 0 < fuel) :
    1 ≤ (pollLoop f fuel i).2 := by
  cases fuel with
  | zero => omega
  | succ n =>
    simp only [pollLoop]
    cases f i with
    | some a => simp
    | none => simp

theorem pollLoop_stops {α : Type} (f : Nat → Option α) (a : α) :
    ∀ (k fuel i : Nat), k < fuel → (∀ j, j < k → f (i + j) = none) →
      f (i + k) = some a → pollLoop f fuel i = (some a, k + 1) := by
  intro k
  induction k with
  | zero =>
    intro fuel i hk h0 hs
    cases fuel with
    | zero => omega
    | succ n =>
      simp only [pollLoop]
      rw [show i + 0 = i from rfl] at hs
      rw [hs]
  | succ k ih =>
    intro fuel i hk h0 hs
    cases fuel with
    | zero => omega
    | succ n =>
      have hfi : f i = none := by
        have := h0 0 (by omega)
        simpa using this
      simp only [pollLoop, hfi]
      have hrec := ih n (i + 1) (by omega)
        (fun j hj => by
          have := h0 (j + 1) (by omega)
          rw [show i + (j + 1) = i + 1 + j by omega] at this
          exact this)
        (by rw [show i + 1 + k = i + (k + 1) by omega]; exact hs)
      rw [hrec]

theorem queuePhase_of_not_truthy (ju : String) (jn : Option String)
    (loc : Option String) (net : NetEnv) (h : strTruthy loc = false) :
    queuePhase ju jn loc net = (none, (none, 0)) := by
  simp [queuePhase, h]

theorem finishTrigger_found_none (ju : String) (jn : Option String)
    (p : List (String × String)) (sc : Option Nat) (body : JVal)
    (qu : Option String) (bt : Trace) (net : NetEnv) :
    finishTrigger ju jn p sc body qu none bt net =
      (.ok { jenkins_url := ju, job_name := jn, triggered := scSuccess sc,
             status_code := sc, parameters_sent := p, api_response := body,
             queue_url := qu, queue_item := none, build_number := none,
             build_url := none, console_output := "" }, bt) := by
  simp [finishTrigger, optTruthy]

theorem finishTrigger_found_str (ju : String) (jn : Option String)
    (p : List (String × String)) (sc : Option Nat) (body : JVal)
    (qu : Option String) (n : JVal) (s : String) (q : JVal) (bt : Trace)
    (net : NetEnv) (hn : n.truthy = true) (hs : s ≠ "") :
    finishTrigger ju jn p sc body qu (some (n, .str s, q)) bt net =
      (.ok { jenkins_url := ju, job_name := jn, triggered := scSuccess sc,
             status_code := sc, parameters_sent := p, api_response := body,
             queue_url := qu, queue_item := some q, build_number := some n,
             build_url := some (.str s),
             console_output := consoleFetch net.consoleResp },
       { bt with
           buildPolls := (pollLoop (fun i => buildStep (net.buildResp i)) 60 0).2,
           consoleFetches := 1 }) := by
  have h1 : optTruthy (some (JVal.str s)) = true := by
    simp [optTruthy, JVal.truthy, hs]
  have h2 : optTruthy (some n) = true := by simp [optTruthy, hn]
  unfold finishTrigger
  simp [h1, h2]

theorem queueStep_some_truthy (ju : String) (jn : Option String) (r : HttpResult)
    (t : JVal × JVal × JVal) (h : queueStep ju jn r = some t) :
    t.1.truthy = true ∧ t.2.1.truthy = true := by
  cases r with
  | error e => simp [queueStep] at h
  | ok qresp =>
    simp only [queueStep] at h
    split at h
    · split at h
      · simp at h
      · split at h
        · simp at h
        · split at h
          · split at h
            · simp at h
            · split at h
              · rename_i exe hexe numv hnum hnt
                simp only [Option.some.injEq] at h
                subst h
                refine ⟨hnt, ?_⟩
                simp only []
                split
                · rename_i hu
                  exact hu
                · simp only [JVal.truthy, bne_iff_ne, ne_eq]
                  exact append_slash_ne_empty _
              · simp at h
          · simp at h
    · simp at h

theorem pollLoop_some_src {α : Type} (f : Nat → Option α) :
    ∀ (fuel i : Nat) (a : α), (pollLoop f fuel i).1 = some a → ∃ j, f j = some a := by
  intro fuel
  induction fuel with
  | zero => intro i a h; simp [pollLoop] at h
  | succ n ih =>
    intro i a h
    simp only [pollLoop] at h
    cases hf : f i with
    | some b =>
      rw [hf] at h
      simp at h
      exact ⟨i, by rw [hf, h]⟩
    | none =>
      rw [hf] at h
      simp at h
      exact ih (i + 1) a h

theorem queuePhase_truthy_eq (ju : String) (jn : Option String)
    (loc : Option String) (net : NetEnv) (h : strTruthy loc = true) :
    queuePhase ju jn loc net =
      (some (if startsWithSlash (loc.getD "") then rstripSlash ju ++ loc.getD ""
             else loc.getD ""),
       pollLoop (fun i => queueStep ju jn (net.queueResp i)) 30 0) := by
  simp [queuePhase, h]

theorem queuePhase_found_truthy (ju : String) (jn : Option String)
    (loc : Option String) (net : NetEnv) (t : JVal × JVal × JVal)
    (h : (queuePhase ju jn loc net).2.1 = some t) :
    t.1.truthy = true ∧ t.2.1.truthy = true := by
  by_cases hl : strTruthy loc = true
  · rw [queuePhase_truthy_eq ju jn loc net hl] at h
    simp only [] at h
    obtain ⟨j, hj⟩ := pollLoop_some_src _ 30 0 t h
    exact queueStep_some_truthy _ _ _ _ hj
  · rw [queuePhase_of_not_truthy ju jn loc net (by
      cases hsl : strTruthy loc
      · rfl
      · exact absurd hsl hl)] at h
    simp at h

theorem finishTrigger_trace_base (ju : String) (jn : Option String)
    (p : List (String × String)) (sc : Option Nat) (body : JVal)
    (qu : Option String) (found : Option (JVal × JVal × JVal)) (bt : Trace)
    (net : NetEnv) :
    (finishTrigger ju jn p sc body qu found bt net).2.submitCalls = bt.submitCalls ∧
    (finishTrigger ju jn p sc body qu found bt net).2.submitHeaders = bt.submitHeaders ∧
    (finishTrigger ju jn p sc body qu found bt net).2.queuePolls = bt.queuePolls ∧
    (finishTrigger ju jn p sc body qu found bt net).2.crumbCalls = bt.crumbCalls := by
  refine ⟨?_, ?_, ?_, ?_⟩ <;>
  · unfold finishTrigger
    dsimp only
    split
    · split <;> rfl
    · rfl

theorem finishTrigger_ok_master (ju : String) (jn : Option String)
    (p : List (String × String)) (sc : Option Nat) (body : JVal)
    (qu : Option String) (found : Option (JVal × JVal × JVal)) (bt : Trace)
    (net : NetEnv) (r : TriggerResult) (tr : Trace)
    (htruthy : ∀ t, found = some t → t.1.truthy = true ∧ t.2.1.truthy = true)
    (h : finishTrigger ju jn p sc body qu found bt net = (.ok r, tr)) :
    r.build_number = found.map (fun t => t.1) ∧
    r.build_url = found.map (fun t => t.2.1) ∧
    r.queue_url = qu ∧ r.status_code = sc ∧ r.api_response = body ∧
    r.triggered = scSuccess sc ∧
    (r.build_url.isSome = true →
        r.console_output = consoleFetch net.consoleResp ∧ tr.consoleFetches = 1 ∧
        tr.buildPolls = (pollLoop (fun i => buildStep (net.buildResp i)) 60 0).2) ∧
    (r.build_url.isSome = false → r.console_output = "" ∧ tr = bt) := by
  cases found with
  | none =>
    rw [finishTrigger_found_none] at h
    rw [Prod.mk.injEq, Except.ok.injEq] at h
    obtain ⟨hr, htr⟩ := h
    subst hr
    subst htr
    refine ⟨rfl, rfl, rfl, rfl, rfl, rfl, ?_, ?_⟩
    · intro hsome; simp at hsome
    · intro _; exact ⟨rfl, rfl⟩
  | some t =>
    obtain ⟨n, u, q⟩ := t
    obtain ⟨hn, hu⟩ := htruthy (n, u, q) rfl
    have h2 : optTruthy (some n) = true := by simp [optTruthy, hn]
    have h1 : optTruthy (some u) = true := by simp [optTruthy, hu]
    cases u with
    | str s =>
      have hs : s ≠ "" := by
        intro he
        rw [he] at hu
        simp [JVal.truthy] at hu
      rw [finishTrigger_found_str ju jn p sc body qu n s q bt net hn hs] at h
      rw [Prod.mk.injEq, Except.ok.injEq] at h
      obtain ⟨hr, htr⟩ := h
      subst hr
      subst htr
      refine ⟨rfl, rfl, rfl, rfl, rfl, rfl, ?_, ?_⟩
      · intro _; exact ⟨rfl, rfl, rfl⟩
      · intro hsome; simp at hsome
    | null => simp [JVal.truthy] at hu
    | bool b => simp [finishTrigger, h1, h2] at h
    | num k => simp [finishTrigger, h1, h2] at h
    | obj fs => simp [finishTrigger, h1, h2] at h

theorem pollLoop_exhaust {α : Type} (f : Nat → Option α) :
    ∀ (fuel i : Nat), (∀ j, j < fuel → f (i + j) = none) →
      pollLoop f fuel i = (none, fuel) := by
  intro fuel
  induction fuel with
  | zero => intro i _; rfl
  | succ n ih =>
    intro i h
    have h0 : f i = none := by simpa using h 0 (by omega)
    simp only [pollLoop, h0]
    rw [ih (i + 1) (fun j hj => by
      have := h (j + 1) (by omega)
      rw [show i + (j + 1) = i + 1 + j by omega] at this
      exact this)]

/-! ### The claims -/

/-- C10: if the initial submit POST fails at the transport level,
`trigger_job` still returns a complete result rather than raising:
`status_code` is `None`, `triggered` is false, `api_response` carries the
exception message, the Location-header read on the missing response is
swallowed, no queue or build polling occurs, and `queue_url`,
`build_number`, `build_url` are `None` with `console_output` empty. -/
theorem trigger_submit_transport_failure (args : Args) (env : OsEnv)
    (net : NetEnv) (exc : String) (h : net.submitResp = .error exc) :
    ∃ r : TriggerResult,
      (handleTriggerJob args env net).1 = .ok r ∧
      r.status_code = none ∧ r.triggered = false ∧
      r.api_response = .obj [("error", .str exc)] ∧
      r.queue_url = none ∧ r.build_number = none ∧ r.build_url = none ∧
      r.console_output = "" ∧
      (handleTriggerJob args env net).2.queuePolls = 0 ∧
      (handleTriggerJob args env net).2.buildPolls = 0 ∧
      (handleTriggerJob args env net).2.consoleFetches = 0 := by
  simp only [handleTriggerJob]
  rw [h]
  rw [show getLocation (.error exc) = none from rfl]
  rw [queuePhase_of_not_truthy _ _ none _ rfl]
  rw [show submitOutcome (.error exc) = (none, .obj [("error", .str exc)]) from rfl]
  rw [finishTrigger_found_none]
  exact ⟨_, rfl, rfl, rfl, rfl, rfl, rfl, rfl, rfl, rfl, rfl, rfl⟩

/-- Witness for C10 at a concrete transport-failing network. -/
theorem trigger_submit_transport_failure_witness :
    ∃ r : TriggerResult,
      (handleTriggerJob fxArgs fxEnv fxNetDown).1 = .ok r ∧
      r.status_code = none ∧ r.triggered = false ∧
      r.api_response = .obj [("error", .str "ConnectionError: boom")] ∧
      r.queue_url = none ∧ r.build_number = none ∧ r.build_url = none ∧
      r.console_output = "" ∧
      (handleTriggerJob fxArgs fxEnv fxNetDown).2.queuePolls = 0 ∧
      (handleTriggerJob fxArgs fxEnv fxNetDown).2.buildPolls = 0 ∧
      (handleTriggerJob fxArgs fxEnv fxNetDown).2.consoleFetches = 0 :=
  trigger_submit_transport_failure fxArgs fxEnv fxNetDown "ConnectionError: boom" rfl

/-- C1: for every trigger_job invocation that returns a result, the
result has `build_number` set if and only if `build_url` is set (both
are assigned together in the queue-resolution step), and
`console_output` is non-default (populated) only if `build_url` was
resolved. -/
theorem trigger_build_fields_invariant (args : Args) (env : OsEnv) (net : NetEnv)
    (r : TriggerResult) (tr : Trace)
    (h : handleTriggerJob args env net = (.ok r, tr)) :
    (r.build_number.isSome ↔ r.build_url.isSome) ∧
    (r.console_output ≠ "" → r.build_url.isSome = true) := by
  simp only [handleTriggerJob] at h
  have hm := finishTrigger_ok_master _ _ _ _ _ _ _ _ _ _ _
    (fun t ht => queuePhase_found_truthy _ _ _ _ t ht) h
  obtain ⟨hbn, hbu, -, -, -, -, hc1, hc0⟩ := hm
  constructor
  · rw [hbn, hbu]
    cases (queuePhase (args.jenkins_url.getD "http://localhost:8081") args.job_name
        (getLocation net.submitResp) net).2.1 <;> simp
  · intro hne
    by_cases hb : r.build_url.isSome = true
    · exact hb
    · have h0 := hc0 (by simpa using hb)
      exact absurd h0.1 hne

/-- Witness for C1 at the concrete happy-path network. -/
theorem trigger_build_fields_invariant_witness :
    (fxResHappy.build_number.isSome ↔ fxResHappy.build_url.isSome) ∧
    (fxResHappy.console_output ≠ "" → fxResHappy.build_url.isSome = true) :=
  trigger_build_fields_invariant fxArgs fxEnv fxNetHappy fxResHappy fxTraceHappy rfl

/-- C3: a trigger_job invocation whose submit response carries no
`Location` header returns `queue_url = None`, `build_number = None`,
`console_output = ""`, and `triggered` equal to whether the submit
status code is in `{200, 201, 202}`. -/
theorem trigger_no_location (args : Args) (env : OsEnv) (net : NetEnv)
    (resp : HttpResponse) (hs : net.submitResp = .ok resp)
    (h1 : headerGet resp.headers "Location" = none)
    (h2 : headerGet resp.headers "location" = none) :
    ∃ r tr, handleTriggerJob args env net = (.ok r, tr) ∧
      r.queue_url = none ∧ r.build_number = none ∧ r.console_output = "" ∧
      r.triggered = scSuccess resp.status_code := by
  simp only [handleTriggerJob]
  rw [hs]
  rw [show getLocation (.ok resp) =
        pyOrStr (headerGet resp.headers "Location")
          (headerGet resp.headers "location") from rfl]
  rw [h1, h2]
  rw [show pyOrStr none none = none from rfl]
  rw [queuePhase_of_not_truthy _ _ none _ rfl]
  rw [finishTrigger_found_none]
  exact ⟨_, _, rfl, rfl, rfl, rfl, rfl⟩

/-- Witness for C3 at a concrete submit response without `Location`. -/
theorem trigger_no_location_witness :
    ∃ r tr, handleTriggerJob fxArgs fxEnv fxNetNoLoc = (.ok r, tr) ∧
      r.queue_url = none ∧ r.build_number = none ∧ r.console_output = "" ∧
      r.triggered = scSuccess fxRespNoLoc.status_code :=
  trigger_no_location fxArgs fxEnv fxNetNoLoc fxRespNoLoc rfl rfl rfl

/-- C2 (counterexample): a trigger_job invocation that resolves a build
URL and whose console fetch answers HTTP 404 (a failure that raises no
exception) leaves `console_output` as the empty string — not a
non-empty sentinel, contradicting the claim that any failure sets an
explicit sentinel. -/
theorem trigger_console_non200_counterexample :
    handleTriggerJob fxArgs fxEnv fxNetConsole404 = (.ok fxResConsole404, fxTraceHappy) ∧
    fxResConsole404.build_url.isSome = true ∧
    fxNetConsole404.consoleResp = .ok fxRespConsole404 ∧
    fxRespConsole404.status_code = some 404 ∧
    fxResConsole404.console_output = "" :=
  ⟨rfl, rfl, rfl, rfl, rfl⟩

/-- C2 (amended): in the DONE phase (entered whenever a build URL was
resolved and the result is returned), the console fetch on HTTP 200
captures the response body verbatim; a transport error (an exception)
sets the explicit sentinel "Unable to fetch console output"; but a
non-200 response without an exception leaves `console_output` as the
empty string. -/
theorem trigger_console_fetch_semantics (args : Args) (env : OsEnv) (net : NetEnv)
    (r : TriggerResult) (tr : Trace)
    (h : handleTriggerJob args env net = (.ok r, tr))
    (hb : r.build_url.isSome = true) :
    (∀ e, net.consoleResp = .error e →
        r.console_output = "Unable to fetch console output") ∧
    (∀ resp, net.consoleResp = .ok resp → resp.status_code = some 200 →
        r.console_output = resp.text) ∧
    (∀ resp, net.consoleResp = .ok resp → resp.status_code ≠ some 200 →
        r.console_output = "") := by
  simp only [handleTriggerJob] at h
  have hm := finishTrigger_ok_master _ _ _ _ _ _ _ _ _ _ _
    (fun t ht => queuePhase_found_truthy _ _ _ _ t ht) h
  have hco := (hm.2.2.2.2.2.2.1 hb).1
  refine ⟨?_, ?_, ?_⟩
  · intro e he; rw [hco, he]; rfl
  · intro resp he h200; rw [hco, he]; simp [consoleFetch, h200]
  · intro resp he h200; rw [hco, he]; simp [consoleFetch, h200]

/-- Witness for the amended C2 at the concrete happy-path network. -/
theorem trigger_console_fetch_semantics_witness :
    (∀ e, fxNetHappy.consoleResp = .error e →
        fxResHappy.console_output = "Unable to fetch console output") ∧
    (∀ resp, fxNetHappy.consoleResp = .ok resp → resp.status_code = some 200 →
        fxResHappy.console_output = resp.text) ∧
    (∀ resp, fxNetHappy.consoleResp = .ok resp → resp.status_code ≠ some 200 →
        fxResHappy.console_output = "") :=
  trigger_console_fetch_semantics fxArgs fxEnv fxNetHappy fxResHappy fxTraceHappy rfl rfl

/-- C5: a trigger_job invocation that returns a result with a resolved
build URL, and whose build poll never observes `building = false` in
its 60 attempts, spends all 60 build polls and still performs exactly
one console fetch before the result is returned. -/
theorem trigger_console_fetched_once (args : Args) (env : OsEnv) (net : NetEnv)
    (r : TriggerResult) (tr : Trace)
    (h : handleTriggerJob args env net = (.ok r, tr))
    (hb : r.build_url.isSome = true)
    (hnever : ∀ i, i < 60 → buildStep (net.buildResp i) = none) :
    tr.consoleFetches = 1 ∧ tr.buildPolls = 60 := by
  simp only [handleTriggerJob] at h
  have hm := finishTrigger_ok_master _ _ _ _ _ _ _ _ _ _ _
    (fun t ht => queuePhase_found_truthy _ _ _ _ t ht) h
  obtain ⟨-, hpolls⟩ := (hm.2.2.2.2.2.2.1 hb).2
  refine ⟨(hm.2.2.2.2.2.2.1 hb).2.1, ?_⟩
  rw [hpolls, pollLoop_exhaust _ 60 0 (fun j hj => by
    rw [Nat.zero_add]; exact hnever j hj)]

/-- Witness for C5 at a network whose build never finishes. -/
theorem trigger_console_fetched_once_witness :
    fxTraceNeverDone.consoleFetches = 1 ∧ fxTraceNeverDone.buildPolls = 60 :=
  trigger_console_fetched_once fxArgs fxEnv fxNetNeverDone fxResNeverDone
    fxTraceNeverDone rfl rfl (fun _ _ => rfl)

/-- C4 (counterexample): a queue poll that observes `executable.number`
on its first attempt stops polling (one queue-poll call), but the call
does NOT proceed to build polling: the captured `executable.url` is a
truthy non-string, so line 315 raises before any build poll, and zero
build polls occur. -/
theorem trigger_queue_stop_counterexample :
    queueStep "http://jenkins" (some "myjob") (fxNetBadUrl.queueResp 0) =
      some (.num 7, .num 7,
        .obj [("executable", .obj [("number", .num 7), ("url", .num 7)])]) ∧
    (handleTriggerJob fxArgs fxEnv fxNetBadUrl).2.queuePolls = 1 ∧
    (handleTriggerJob fxArgs fxEnv fxNetBadUrl).2.buildPolls = 0 ∧
    (handleTriggerJob fxArgs fxEnv fxNetBadUrl).1 =
      .error "AttributeError: object has no attribute rstrip" :=
  ⟨rfl, rfl, rfl, rfl⟩

/-- C4 (amended): a trigger_job invocation whose queue poll first
observes an `executable` with a build number on 0-based attempt `k`
(`k < 30`), and whose captured build URL is a string, performs exactly
`k + 1` queue-poll calls (so no more than that attempt) and proceeds to
build polling (at least one build poll, and the console fetch that
follows). -/
theorem trigger_queue_stops_at_k (args : Args) (env : OsEnv) (net : NetEnv)
    (k : Nat) (n : JVal) (s : String) (q : JVal)
    (hloc : strTruthy (getLocation net.submitResp) = true)
    (hk : k < 30)
    (hnone : ∀ j, j < k →
      queueStep (args.jenkins_url.getD "http://localhost:8081") args.job_name
        (net.queueResp j) = none)
    (hsome : queueStep (args.jenkins_url.getD "http://localhost:8081") args.job_name
        (net.queueResp k) = some (n, .str s, q)) :
    (handleTriggerJob args env net).2.queuePolls = k + 1 ∧
    1 ≤ (handleTriggerJob args env net).2.buildPolls ∧
    (handleTriggerJob args env net).2.consoleFetches = 1 := by
  have hn := (queueStep_some_truthy _ _ _ _ hsome).1
  have hs : s ≠ "" := by
    simpa [JVal.truthy] using (queueStep_some_truthy _ _ _ _ hsome).2
  simp only [handleTriggerJob]
  rw [queuePhase_truthy_eq _ _ _ _ hloc]
  rw [pollLoop_stops _ _ k 30 0 hk
    (fun j hj => by rw [Nat.zero_add]; exact hnone j hj)
    (by rw [Nat.zero_add]; exact hsome)]
  rw [finishTrigger_found_str _ _ _ _ _ _ _ _ _ _ _ hn hs]
  exact ⟨rfl, pollLoop_pos _ 60 0 (by omega), rfl⟩

/-- Witness for the amended C4: the happy-path queue resolves on the
second attempt (`k = 1`), two queue polls occur, then build polling. -/
theorem trigger_queue_stops_at_k_witness :
    (handleTriggerJob fxArgs fxEnv fxNetHappy).2.queuePolls = 1 + 1 ∧
    1 ≤ (handleTriggerJob fxArgs fxEnv fxNetHappy).2.buildPolls ∧
    (handleTriggerJob fxArgs fxEnv fxNetHappy).2.consoleFetches = 1 :=
  trigger_queue_stops_at_k fxArgs fxEnv fxNetHappy 1 (.num 7)
    "http://jenkins/job/myjob/7/"
    (.obj [("executable",
      .obj [("number", .num 7), ("url", .str "http://jenkins/job/myjob/7/")])])
    rfl (by omega)
    (fun j hj => by
      have hj0 : j = 0 := by omega
      subst hj0
      rfl)
    rfl

/-- C6: when the initial submit POST answers with an HTTP status ≥ 400,
the error is surfaced inside the result payload (status code and raw
response body) without any exception propagating from the submit step,
and the dispatcher envelope still reports `success: true`; the failure
envelope arises only from an internal fault of the handler (and, per
C8, from an unknown tool name). -/
theorem trigger_upstream_error_surfaced (args : Args) (env : OsEnv) (net : NetEnv)
    (resp : HttpResponse) (c : Nat) (hs : net.submitResp = .ok resp)
    (hc : resp.status_code = some c) (h4 : 400 ≤ c) :
    (∀ r tr, handleTriggerJob args env net = (.ok r, tr) →
       r.status_code = some c ∧
       r.api_response = .obj [("error", .str resp.text)] ∧
       r.triggered = false ∧
       (process_tool_call "trigger_job" args env net).1.success = true ∧
       (process_tool_call "trigger_job" args env net).1.result = some (.triggerR r) ∧
       (process_tool_call "trigger_job" args env net).1.error = none) ∧
    (∀ e tr, handleTriggerJob args env net = (.error e, tr) →
       (process_tool_call "trigger_job" args env net).1.success = false ∧
       (process_tool_call "trigger_job" args env net).1.error = some e) := by
  have hlt : submitLt400 (some c) = false := by
    simp [submitLt400]
    omega
  have hso : submitOutcome net.submitResp = (some c, .obj [("error", .str resp.text)]) := by
    rw [hs]
    simp [submitOutcome, hc, hlt]
  have hd : process_tool_call "trigger_job" args env net =
      (match handleTriggerJob args env net with
       | (.ok r, tr) =>
         ({ success := true, result := some (.triggerR r), error := none }, tr)
       | (.error e, tr) =>
         ({ success := false, result := none, error := some e }, tr)) := rfl
  constructor
  · intro r tr h
    have h' := h
    simp only [handleTriggerJob] at h'
    obtain ⟨-, -, -, hsc', hapi, htrig, -, -⟩ := finishTrigger_ok_master _ _ _ _ _ _ _ _ _ _ _
      (fun t ht => queuePhase_found_truthy _ _ _ _ t ht) h'
    refine ⟨?_, ?_, ?_, ?_, ?_, ?_⟩
    · rw [hsc', hso]
    · rw [hapi, hso]
    · rw [htrig, hso]
      simp [scSuccess]
      omega
    · rw [hd, h]
    · rw [hd, h]
    · rw [hd, h]
  · intro e tr h
    constructor
    · rw [hd, h]
    · rw [hd, h]

/-- Witness for C6 at a concrete 400 submit response. -/
theorem trigger_upstream_error_surfaced_witness :
    (∀ r tr, handleTriggerJob fxArgs fxEnv fxNet400 = (.ok r, tr) →
       r.status_code = some 400 ∧
       r.api_response = .obj [("error", .str fxRespSubmit400.text)] ∧
       r.triggered = false ∧
       (process_tool_call "trigger_job" fxArgs fxEnv fxNet400).1.success = true ∧
       (process_tool_call "trigger_job" fxArgs fxEnv fxNet400).1.result = some (.triggerR r) ∧
       (process_tool_call "trigger_job" fxArgs fxEnv fxNet400).1.error = none) ∧
    (∀ e tr, handleTriggerJob fxArgs fxEnv fxNet400 = (.error e, tr) →
       (process_tool_call "trigger_job" fxArgs fxEnv fxNet400).1.success = false ∧
       (process_tool_call "trigger_job" fxArgs fxEnv fxNet400).1.error = some e) :=
  trigger_upstream_error_surfaced fxArgs fxEnv fxNet400 fxRespSubmit400 400
    rfl rfl (by omega)

/-- C7 (counterexample): a 200 crumb response whose JSON body has both
`crumbRequestField` and `crumb` present — but with `crumbRequestField`
the empty string — yields no header pair, contradicting the claim that
the pair is returned exactly when the endpoint responds 200 with both
fields present. -/
theorem crumb_present_not_returned_counterexample :
    fxRespCrumbPresent.status_code = some 200 ∧
    fxRespCrumbPresent.body = some fxCrumbBodyPresent ∧
    fxCrumbBodyPresent.hasKey "crumbRequestField" = true ∧
    fxCrumbBodyPresent.hasKey "crumb" = true ∧
    resolveCrumbHeaders true (.ok fxRespCrumbPresent) = [] :=
  ⟨rfl, rfl, rfl, rfl, rfl⟩

/-- C7 (amended): crumb resolution returns the header pair exactly when
the endpoint responds HTTP 200 with both `crumbRequestField` and
`crumb` present with truthy values (and a hashable field value); on
every other outcome it yields no header, and in every invocation the
submit POST is still attempted — exactly once — with precisely the
headers crumb resolution produced (so, without the crumb header when
resolution failed). -/
theorem crumb_resolution_semantics :
    (∀ (r : HttpResult) (f v : JVal),
       resolveCrumbHeaders true r = [(f, v)] ↔
         ∃ resp cj, r = .ok resp ∧ resp.status_code = some 200 ∧
           resp.body = some cj ∧
           cj.get "crumbRequestField" = .ok f ∧ cj.get "crumb" = .ok v ∧
           f.truthy = true ∧ v.truthy = true ∧ f.hashable = true) ∧
    (∀ (args : Args) (env : OsEnv) (net : NetEnv),
       (handleTriggerJob args env net).2.submitCalls = 1 ∧
       (handleTriggerJob args env net).2.submitHeaders =
         resolveCrumbHeaders
           (strTruthy (pyOrStr args.username env.jenkins_username) &&
             strTruthy (pyOrStr args.api_token env.jenkins_api_token))
           net.crumbResp) := by
  constructor
  · intro r f v
    constructor
    · intro h
      cases r with
      | error e => simp [resolveCrumbHeaders] at h
      | ok resp =>
        simp only [resolveCrumbHeaders, if_true] at h
        split at h
        · rename_i hsc
          split at h
          · simp at h
          · rename_i cj hcj
            split at h
            · rename_i f0 v0 hf0 hv0
              split at h
              · rename_i htv
                split at h
                · rename_i hhash
                  simp at h
                  obtain ⟨hf, hv⟩ := h
                  subst hf
                  subst hv
                  rw [Bool.and_eq_true] at htv
                  exact ⟨resp, cj, rfl, hsc, hcj, hf0, hv0, htv.1, htv.2, hhash⟩
                · simp at h
              · simp at h
            · simp at h
        · simp at h
    · rintro ⟨resp, cj, rfl, hsc, hcj, hf, hv, htf, htv, hh⟩
      simp [resolveCrumbHeaders, hsc, hcj, hf, hv, htf, htv, hh]
  · intro args env net
    simp only [handleTriggerJob]
    exact ⟨(finishTrigger_trace_base _ _ _ _ _ _ _ _ _).1,
           (finishTrigger_trace_base _ _ _ _ _ _ _ _ _).2.1⟩

/-- Witness for the amended C7: a well-formed crumb body yields its
header pair. -/
theorem crumb_resolution_semantics_witness :
    resolveCrumbHeaders true (.ok fxRespCrumbGood) =
      [(.str "Jenkins-Crumb", .str "abc")] :=
  (crumb_resolution_semantics.1 (.ok fxRespCrumbGood)
      (.str "Jenkins-Crumb") (.str "abc")).2
    ⟨fxRespCrumbGood, fxCrumbBodyGood, rfl, rfl, rfl, rfl, rfl, rfl, rfl, rfl⟩

/-- C8: for every tool name not present in the catalog,
`process_tool_call` returns an envelope with `success = false` and an
error message containing that tool name. -/
theorem unknown_tool_envelope (tool_name : String) (args : Args) (env : OsEnv)
    (net : NetEnv) (h : tool_name ∉ toolNames) :
    (process_tool_call tool_name args env net).1.success = false ∧
    ∃ e, (process_tool_call tool_name args env net).1.error = some e ∧
      tool_name.data <:+: e.data := by
  simp only [process_tool_call]
  rw [if_pos h]
  refine ⟨rfl, "Unknown tool: " ++ tool_name, rfl,
    "Unknown tool: ".data, [], ?_⟩
  rw [List.append_nil]
  exact (String.data_append _ _).symm

/-- Witness for C8 at a concrete unknown tool name. -/
theorem unknown_tool_envelope_witness :
    (process_tool_call "bogus_tool" fxArgs fxEnv fxNetDown).1.success = false ∧
    ∃ e, (process_tool_call "bogus_tool" fxArgs fxEnv fxNetDown).1.error = some e ∧
      "bogus_tool".data <:+: e.data :=
  unknown_tool_envelope "bogus_tool" fxArgs fxEnv fxNetDown (by decide)

/-- C9: `get_jenkins_status`, `list_jobs` and `get_job_info` are pure
functions of their argument mapping: the envelope is independent of the
process environment and of the network oracle, no HTTP call occurs
(the trace is zero), and dispatching `get_jenkins_status` yields a
result whose `status` field is "healthy". -/
theorem placeholder_tools_pure (tool_name : String)
    (h : tool_name ∈ (["get_jenkins_status", "list_jobs", "get_job_info"] : List String))
    (args : Args) (env env' : OsEnv) (net net' : NetEnv) :
    (process_tool_call tool_name args env net).1 =
      (process_tool_call tool_name args env' net').1 ∧
    (process_tool_call tool_name args env net).2 = Trace.zero ∧
    (tool_name = "get_jenkins_status" →
       ∃ s, (process_tool_call tool_name args env net).1.result =
         some (.statusR s) ∧ s.status = "healthy") := by
  simp only [List.mem_cons, List.not_mem_nil, or_false] at h
  rcases h with rfl | rfl | rfl
  · exact ⟨rfl, rfl, fun _ => ⟨_, rfl, rfl⟩⟩
  · exact ⟨rfl, rfl, fun he => absurd he (by decide)⟩
  · exact ⟨rfl, rfl, fun he => absurd he (by decide)⟩

/-- Witness for C9: `get_jenkins_status` dispatched against two very
different networks and environments. -/
theorem placeholder_tools_pure_witness :
    (process_tool_call "get_jenkins_status" fxArgs fxEnv fxNetDown).1 =
      (process_tool_call "get_jenkins_status" fxArgs fxEnv fxNetHappy).1 ∧
    (process_tool_call "get_jenkins_status" fxArgs fxEnv fxNetDown).2 = Trace.zero ∧
    ("get_jenkins_status" = "get_jenkins_status" →
       ∃ s, (process_tool_call "get_jenkins_status" fxArgs fxEnv fxNetDown).1.result =
         some (.statusR s) ∧ s.status = "healthy") :=
  placeholder_tools_pure "get_jenkins_status" (by decide) fxArgs fxEnv fxEnv
    fxNetDown fxNetHappy

end JenkinsMCP
